import Mathlib

/-!
Verification of the coven test-harness repository against its specification.

The repository holds two scenario-test orchestrators:
  * `src/e2e/test_runner.py` — HTTP/SSE "gateway" runner,
  * `src/.scratch-archive/fold-swarm/test-jail-integration.py` — WebSocket
    "jail" runner.

Both are shallowly embedded below.  Network interactions are modelled as
oracles (`Except`-valued outcomes supplied by an environment); Python
exceptions are modelled as the `Except.error` branch carrying the exception
text; `json.loads` (a stdlib collaborator, not repository code) is a
parameter `parse : String → Option Json` of every function that uses it.
JSON numbers are modelled as integers (no claim touches floating point).
Durations are modelled as a supplied `Nat` (wall-clock measurement itself is
not modellable); no claim constrains a duration beyond its type.
-/

namespace Coven

/-- Exception text, as produced by Python `str(e)`. -/
abbrev Err := String

/-! Structural string helpers (kernel-reducible equivalents of the Python
string methods the scripts use). -/

/-- Does the first character list start with the second? -/
def listStartsWith : List Char → List Char → Bool
  | _, [] => true
  | [], _ :: _ => false
  | c :: cs, p :: ps => c == p && listStartsWith cs ps

/-- Python `s.startswith(p)`. -/
def strStartsWith (s p : String) : Bool :=
  listStartsWith s.data p.data

/-- Python `s[n:]`. -/
def strDrop (s : String) (n : Nat) : String :=
  String.mk (s.data.drop n)

/-- Python `s.lower()` (ASCII; the needles compared against are ASCII). -/
def strToLower (s : String) : String :=
  String.mk (s.data.map Char.toLower)

/-- Split a character list at newlines, `acc` holding the (reversed)
current piece. -/
def splitLinesAux : List Char → List Char → List String
  | [], acc => [String.mk acc.reverse]
  | c :: cs, acc =>
    if c = '\n' then String.mk acc.reverse :: splitLinesAux cs []
    else splitLinesAux cs (c :: acc)

/-- Python `s.split("\n")`: the pieces between newlines, keeping empty
pieces, `[""]` for the empty string. -/
def splitLines (s : String) : List String :=
  splitLinesAux s.data []

/-- Does `pat` occur (contiguously) in `hay`? -/
def containsSubAux (hay pat : List Char) : Bool :=
  listStartsWith hay pat ||
    match hay with
    | [] => false
    | _ :: t => containsSubAux t pat

/-- The values `json.loads` can return (numbers restricted to integers).
Objects keep their field order; `json.loads` never produces duplicate keys. -/
inductive Json where
  | null
  | bool (b : Bool)
  | num (n : Int)
  | str (s : String)
  | arr (elems : List Json)
  | obj (fields : List (String × Json))
deriving Repr

/-- Python `x == "lit"` for a value of unknown type: true only for the equal
string. -/
def Json.eqStr : Json → String → Bool
  | .str a, b => a == b
  | _, _ => false

/-- Is the value Python `None` (JSON `null`)? -/
def Json.isNull : Json → Bool
  | .null => true
  | _ => false

/-- Is the value a JSON object (Python `dict`)? -/
def Json.isObj : Json → Bool
  | .obj _ => true
  | _ => false

/-- Is the value a JSON array (Python `list`)?  Mirrors
`isinstance(x, list)`. -/
def Json.isArr : Json → Bool
  | .arr _ => true
  | _ => false

/-- Last-binding lookup in an object's field list (Python dicts built by
`json.loads` keep the last duplicate key). -/
def jsonLookup (fields : List (String × Json)) (k : String) : Option Json :=
  fields.foldl (fun acc kv => if kv.1 == k then some kv.2 else acc) none

mutual
/-- Python `repr` of a `json.loads` value, as used inside containers by
`str`. -/
def Json.pyRepr : Json → String
  | .null => "None"
  | .bool true => "True"
  | .bool false => "False"
  | .num n => toString n
  | .str s => "\x27" ++ s ++ "\x27"
  | .arr xs => "[" ++ Json.pyReprList xs ++ "]"
  | .obj fs => "\x7b" ++ Json.pyReprFields fs ++ "\x7d"

/-- Comma-joined `repr`s of list elements. -/
def Json.pyReprList : List Json → String
  | [] => ""
  | [x] => Json.pyRepr x
  | x :: xs => Json.pyRepr x ++ ", " ++ Json.pyReprList xs

/-- Comma-joined `repr`s of dict entries. -/
def Json.pyReprFields : List (String × Json) → String
  | [] => ""
  | [(k, v)] => "\x27" ++ k ++ "\x27: " ++ Json.pyRepr v
  | (k, v) :: fs =>
      "\x27" ++ k ++ "\x27: " ++ Json.pyRepr v ++ ", " ++ Json.pyReprFields fs
end

/-- Python `str` of a `json.loads` value (`str` on a string is the raw
string; on containers it is `repr`). -/
def Json.pyStr : Json → String
  | .str s => s
  | j => j.pyRepr

/-- Python `needle in hay` for strings: substring occurrence. -/
def containsSub (hay needle : String) : Bool :=
  containsSubAux hay.data needle.data

/-- Python `needle in data` for a `json.loads` value: key membership for
dicts, element membership for lists, substring for strings, `TypeError`
otherwise. -/
def pyIn (needle : String) (data : Json) : Except Err Bool :=
  match data with
  | .obj fs => .ok (fs.any (fun kv => kv.1 == needle))
  | .arr xs => .ok (xs.any (fun x => x.eqStr needle))
  | .str s => .ok (containsSub s needle)
  | _ => .error "TypeError: argument is not iterable"

/-- Python `data[k]` with a string key: dict lookup (`KeyError` if absent),
`TypeError` for every other type. -/
def pySubscr (data : Json) (k : String) : Except Err Json :=
  match data with
  | .obj fs =>
      match jsonLookup fs k with
      | some v => .ok v
      | none => .error ("KeyError: " ++ k)
  | _ => .error "TypeError: indices must be integers"

/-- Python `data.get(k)` (default `None`): only dicts have `.get`. -/
def pyGet (data : Json) (k : String) : Except Err Json :=
  match data with
  | .obj fs => .ok ((jsonLookup fs k).getD .null)
  | _ => .error "AttributeError: object has no attribute get"

/-- Python `for a in data`: list elements, dict keys, string characters;
`TypeError` otherwise. -/
def pyIter (data : Json) : Except Err (List Json) :=
  match data with
  | .arr xs => .ok xs
  | .obj fs => .ok (fs.map (fun kv => Json.str kv.1))
  | .str s => .ok (s.toList.map (fun c => Json.str (String.singleton c)))
  | _ => .error "TypeError: object is not iterable"

/-- Python `len(data)`: strings, lists and dicts only. -/
def pyLen (data : Json) : Except Err Nat :=
  match data with
  | .str s => .ok s.length
  | .arr xs => .ok xs.length
  | .obj fs => .ok fs.length
  | _ => .error "TypeError: object has no len"

/-! ## Shared data model (`src/e2e/test_runner.py`) -/

/-- `TestResult` dataclass (`test_runner.py`, lines 27–32). -/
structure TestResult where
  name : String
  passed : Bool
  duration_ms : Nat
  error : Option String
deriving Repr, DecidableEq

/-- An HTTP response as the runner observes it: `resp.status_code` and
`resp.text`.  `resp.json()` is `parse resp.text` (raising
`JSONDecodeError` when it fails). -/
structure Response where
  statusCode : Nat
  text : String
deriving Repr, DecidableEq

/-- The dict returned by `send_message` (`test_runner.py`, lines 98–102).
`fullResponse = Json.null` is Python `full_response is None`: the initial
value `None` and an explicit JSON `null` field value are the same Python
object, so the model does not distinguish them either. -/
structure SendResult where
  statusCode : Nat
  events : List Json
  fullResponse : Json
deriving Repr

/-! ## SSE stream parsing (`send_message`, `test_runner.py` lines 75–102) -/

/-- One iteration of the `for line in resp.text.split("\n")` loop.  Only
`json.JSONDecodeError` is caught; the `"full_response" in data` membership
test and the `data["full_response"]` subscript can raise `TypeError`,
which propagates. -/
def processLine (parse : String → Option Json) (st : List Json × Json)
    (line : String) : Except Err (List Json × Json) :=
  if strStartsWith line "data: " then
    match parse (strDrop line 6) with
    | none => .ok st
    | some data =>
      let events := st.1 ++ [data]
      match pyIn "full_response" data with
      | .error e => .error e
      | .ok true =>
          match pySubscr data "full_response" with
          | .error e => .error e
          | .ok v => .ok (events, v)
      | .ok false => .ok (events, st.2)
  else .ok st

/-- The SSE-parsing loop of `send_message`: fold `processLine` over the
newline-split body, starting from `events = []`, `full_response = None`. -/
def parseSSE (parse : String → Option Json) (text : String) :
    Except Err (List Json × Json) :=
  (splitLines text).foldlM (processLine parse) ([], Json.null)

/-- `send_message` (`test_runner.py`, lines 75–102): the POST outcome is the
oracle `post`; an exception from the POST or from the parsing loop
propagates to the caller. -/
def send_message (parse : String → Option Json)
    (post : Except Err Response) : Except Err SendResult := do
  let resp ← post
  let (events, fr) ← parseSSE parse resp.text
  pure ⟨resp.statusCode, events, fr⟩

/-- The payload a single line contributes: lines with the `"data: "`
marker whose remainder parses as JSON. -/
def keepLine (parse : String → Option Json) (l : String) : Option Json :=
  if strStartsWith l "data: " then parse (strDrop l 6) else none

/-- The payloads of the kept lines, as the specification describes them,
in order.  (Spec-side definition, for the refinement statement of claim
C6.) -/
def keptPayloads (parse : String → Option Json) (text : String) :
    List Json :=
  (splitLines text).filterMap (keepLine parse)

/-- Does this payload (assumed an object) carry the aggregate-response
field? -/
def hasFullResponse (d : Json) : Bool :=
  match d with
  | .obj fs => fs.any (fun kv => kv.1 == "full_response")
  | _ => false

/-- Spec-side aggregated response: the `full_response` field of the last
payload carrying that field, `None` when no payload does (claim C6). -/
def sseSpecFullResponse (payloads : List Json) : Json :=
  match (payloads.filter hasFullResponse).getLast? with
  | some (.obj fs) => (jsonLookup fs "full_response").getD .null
  | _ => .null

/-! ## Gateway scenario functions (`test_runner.py` lines 110–273)

Each scenario takes the outcome of its network interaction as an oracle
(`Except Err Response`), its duration measurement as `dur`, and returns
the `TestResult` the Python function returns.  The `try/except` of each
scenario is the final `match` on the `Except` computation. -/

/-- Python `any(p(e) for e in xs)` where the predicate itself may raise:
short-circuits on the first `True`, propagates the first exception. -/
def exceptAny (p : α → Except Err Bool) : List α → Except Err Bool
  | [] => .ok false
  | x :: xs =>
    match p x with
    | .error e => .error e
    | .ok true => .ok true
    | .ok false => exceptAny p xs

/-- `test_gateway_health` (lines 110–128). -/
def test_gateway_health (get : Except Err Response) (dur : Nat) :
    TestResult :=
  match get with
  | .error e => ⟨"gateway-health", false, dur, some e⟩
  | .ok resp =>
    let passed := resp.statusCode == 200
    ⟨"gateway-health", passed, dur,
      if passed then none
      else some ("Status code: " ++ toString resp.statusCode)⟩

/-- `test_agent_list` (lines 131–149).  `resp.json()` is only evaluated
when the status is 200 (Python `and` short-circuits); if the body does not
parse, the `JSONDecodeError` is caught by the scenario's own `except`. -/
def test_agent_list (parse : String → Option Json)
    (get : Except Err Response) (dur : Nat) : TestResult :=
  match get with
  | .error e => ⟨"agent-list", false, dur, some e⟩
  | .ok resp =>
    if resp.statusCode != 200 then
      ⟨"agent-list", false, dur, some ("Response: " ++ resp.text)⟩
    else
      match parse resp.text with
      | none => ⟨"agent-list", false, dur, some "JSONDecodeError"⟩
      | some j =>
        let passed := j.isArr
        ⟨"agent-list", passed, dur,
          if passed then none else some ("Response: " ++ resp.text)⟩

/-- `test_simple_message` (lines 152–176).  `len(full_response)` is only
evaluated when the status is 200 and the response is not `None`; a
`TypeError` from `len` is caught by the scenario. -/
def test_simple_message (parse : String → Option Json)
    (post : Except Err Response) (agentId : Json) (dur : Nat) : TestResult :=
  let name := "simple-message-" ++ agentId.pyStr
  let body : Except Err Bool := do
    let result ← send_message parse post
    if result.statusCode != 200 then pure false
    else if result.fullResponse.isNull then pure false
    else do
      let n ← pyLen result.fullResponse
      pure (n > 0)
  match body with
  | .error e => ⟨name, false, dur, some e⟩
  | .ok passed =>
    ⟨name, passed, dur, if passed then none else some "No response received"⟩

/-- The `has_tool_use` generator predicate of `test_pack_tool_log_entry`
(line 192): `"tool_use" in str(e) or e.get("name") == "log_entry"`; the
`.get` raises `AttributeError` on a non-dict event. -/
def hasToolUsePred (e : Json) : Except Err Bool :=
  if containsSub e.pyStr "tool_use" then .ok true
  else do
    let n ← pyGet e "name"
    pure (n.eqStr "log_entry")

/-- The `has_tool_result` generator predicate of `test_pack_tool_log_entry`
(line 193): `"tool_result" in str(e) or "id" in str(e)`; never raises. -/
def hasToolResultPred (e : Json) : Except Err Bool :=
  .ok (containsSub e.pyStr "tool_result" || containsSub e.pyStr "id")

/-- `test_pack_tool_log_entry` (lines 179–212).  `has_tool_result` is
computed (it can look at every event) but does not enter `passed`;
`full_response.lower()` is only reached when the earlier conjuncts and the
`has_tool_use` disjunct leave it to decide, and raises `AttributeError`
on a non-string. -/
def test_pack_tool_log_entry (parse : String → Option Json)
    (post : Except Err Response) (agentId : Json) (dur : Nat) : TestResult :=
  let name := "pack-tool-log-entry-" ++ agentId.pyStr
  let body : Except Err (Bool × Json) := do
    let result ← send_message parse post
    let hasToolUse ← exceptAny hasToolUsePred result.events
    let _hasToolResult ← exceptAny hasToolResultPred result.events
    if result.statusCode != 200 then pure (false, result.fullResponse)
    else if result.fullResponse.isNull then pure (false, result.fullResponse)
    else if hasToolUse then pure (true, result.fullResponse)
    else
      match result.fullResponse with
      | .str s =>
          pure (containsSub (strToLower s) "logged", result.fullResponse)
      | _ => .error "AttributeError: object has no attribute lower"
  match body with
  | .error e => ⟨name, false, dur, some e⟩
  | .ok (passed, fr) =>
    ⟨name, passed, dur,
      if passed then none else some ("Response: " ++ fr.pyStr)⟩

/-- `test_pack_tool_log_search` (lines 215–242). -/
def test_pack_tool_log_search (parse : String → Option Json)
    (post : Except Err Response) (agentId : Json) (dur : Nat) : TestResult :=
  let name := "pack-tool-log-search-" ++ agentId.pyStr
  let body : Except Err (Bool × Json) := do
    let result ← send_message parse post
    if result.statusCode != 200 then pure (false, result.fullResponse)
    else if result.fullResponse.isNull then pure (false, result.fullResponse)
    else
      match result.fullResponse with
      | .str s =>
          pure (containsSub (strToLower s) "found" ||
                  containsSub (strToLower s) "entries", result.fullResponse)
      | _ => .error "AttributeError: object has no attribute lower"
  match body with
  | .error e => ⟨name, false, dur, some e⟩
  | .ok (passed, fr) =>
    ⟨name, passed, dur,
      if passed then none else some ("Response: " ++ fr.pyStr)⟩

/-- `test_parallel_messages` (lines 245–273).  `asyncio.gather(*,
return_exceptions=True)` turns each leg into an independent
`Except`-valued entry of the list; `all_passed` is Python
`isinstance(r, dict) and r.get("full_response") is not None`. -/
def test_parallel_messages (parse : String → Option Json)
    (posts : List (Except Err Response)) (dur : Nat) : TestResult :=
  let results := posts.map (send_message parse)
  let allPassed := results.all fun r =>
    match r with
    | .ok d => !d.fullResponse.isNull
    | .error _ => false
  ⟨"parallel-messages", allPassed, dur,
    if allPassed then none else some "Some agents failed to respond"⟩

/-! ## Readiness probers -/

/-- Outcome of one `client.get(f"{GATEWAY_URL}/health")` attempt inside
`wait_for_gateway`: a response, or a raised exception (the `except
Exception` there catches everything). -/
inductive ProbeResult where
  | ok (r : Response)
  | exn (e : Err)
deriving Repr

/-- Did a probe attempt succeed (HTTP 200)? -/
def probeSuccess : ProbeResult → Bool
  | .ok r => r.statusCode == 200
  | .exn _ => false

/-- `wait_for_gateway` (`test_runner.py`, lines 35–49), discretized: the
loop body runs once per second (one `sleep(1)` per iteration), so a
deadline of `max_wait` seconds is `fuel` attempts; `probe a` is the
outcome of the `a`-th GET.  A 200 response returns `true`; any exception
is swallowed and the loop continues; exhausted fuel returns `false`. -/
def wait_for_gateway (probe : Nat → ProbeResult) :
    Nat → Nat → Bool
  | _, 0 => false
  | a, fuel + 1 =>
    match probe a with
    | .ok r =>
        if r.statusCode == 200 then true
        else wait_for_gateway probe (a + 1) fuel
    | .exn _ => wait_for_gateway probe (a + 1) fuel

/-- Outcome of one `websockets.connect(url)` attempt inside
`wait_for_server` of the jail runner: connected; a connection failure
(`ConnectionRefusedError` / `OSError`), which its `except` swallows; or
any other exception (`websockets.connect` can also raise e.g.
`InvalidURI` on a malformed URL or `InvalidHandshake` when the listener
answers with a non-WebSocket response), which the narrow `except` tuple
does NOT catch. -/
inductive ConnectOutcome where
  | connected
  | connFail (e : Err)
  | otherExn (e : Err)
deriving Repr, DecidableEq

/-- `wait_for_server` (`test-jail-integration.py`, lines 29–38),
discretized: one attempt per 0.2 s sleep, so a 10 s deadline is `fuel`
attempts.  A successful connect returns `true` (the `async with` closes
it again); a connection failure sleeps and retries; any other exception
is not caught and propagates out of the prober (the `Except.error`
branch); an exhausted deadline returns `false`. -/
def wait_for_server (probe : Nat → ConnectOutcome) :
    Nat → Nat → Except Err Bool
  | _, 0 => .ok false
  | a, fuel + 1 =>
    match probe a with
    | .connected => .ok true
    | .connFail _ => wait_for_server probe (a + 1) fuel
    | .otherExn e => .error e

/-! ## Gateway run (`run_tests`, `test_runner.py` lines 281–371) -/

/-- The network oracle for one gateway run: the health-probe attempts, the
agent-discovery GET at line 292, and each scenario's interaction keyed by
the agent id it targets. -/
structure GatewayEnv where
  gatewayProbe : Nat → ProbeResult
  agentsGet : Except Err Response
  healthGet : Except Err Response
  agentListGet : Except Err Response
  simplePost : Json → Except Err Response
  logEntryPost : Json → Except Err Response
  logSearchPost : Json → Except Err Response
  parallelPost : Json → Except Err Response

/-- `agents = resp.json() if resp.status_code == 200 else []` followed by
`agent_ids = [a["id"] for a in agents]` (lines 293–294); every step can
raise, and nothing in `run_tests` catches it. -/
def computeAgentIds (parse : String → Option Json) (resp : Response) :
    Except Err (List Json) := do
  let agents ←
    if resp.statusCode == 200 then
      match parse resp.text with
      | some j => Except.ok j
      | none => Except.error "JSONDecodeError"
    else Except.ok (Json.arr [])
  let items ← pyIter agents
  items.mapM (fun a => pySubscr a "id")

/-- One scheduled scenario invocation of `run_tests`. -/
inductive Call where
  | health
  | agentList
  | simple (agentId : Json)
  | logEntry (agentId : Json)
  | logSearch (agentId : Json)
  | parallel (agentIds : List Json)

/-- The scenario schedule of `run_tests` (lines 303–318): the two
infrastructure tests, three tests per registered agent in order, and —
only when at least two agents are registered — one parallel test over
`agent_ids[:2]`. -/
def schedule (agentIds : List Json) : List Call :=
  [Call.health, Call.agentList]
    ++ agentIds.flatMap (fun a => [Call.simple a, Call.logEntry a, Call.logSearch a])
    ++ (if 2 ≤ agentIds.length then [Call.parallel (agentIds.take 2)] else [])

/-- Dispatch one scheduled call to its scenario function (durations are
the model's `0`; no claim constrains them). -/
def runCall (parse : String → Option Json) (env : GatewayEnv) :
    Call → TestResult
  | .health => test_gateway_health env.healthGet 0
  | .agentList => test_agent_list parse env.agentListGet 0
  | .simple a => test_simple_message parse (env.simplePost a) a 0
  | .logEntry a => test_pack_tool_log_entry parse (env.logEntryPost a) a 0
  | .logSearch a => test_pack_tool_log_search parse (env.logSearchPost a) a 0
  | .parallel as => test_parallel_messages parse (as.map env.parallelPost) 0

/-- The `{passed, failed, results}` JSON summary document
(lines 347–363). -/
structure Summary where
  passed : Nat
  failed : Nat
  results : List TestResult
deriving Repr, DecidableEq

/-- The counting loop of lines 328–335: one increment per result. -/
def countResults (results : List TestResult) : Nat × Nat :=
  results.foldl
    (fun acc r => if r.passed then (acc.1 + 1, acc.2) else (acc.1, acc.2 + 1))
    (0, 0)

/-- How one gateway run ends. `notReady` is the `sys.exit(1)` at line 289;
`crashed` is an exception that nothing in `run_tests` catches, which
aborts the process before any `TestResult`, table or summary file exists;
`finished` carries the results, the summary document (written only when
`/results` exists), and the `failed == 0` return value. -/
inductive RunOutcome where
  | notReady
  | crashed (e : Err)
  | finished (results : List TestResult) (written : Option Summary)
      (success : Bool)

/-- `run_tests` (lines 281–366).  `resultsDirExists` models
`Path("/results").exists()` of the parent directory check at line 345. -/
def run_tests (parse : String → Option Json) (env : GatewayEnv)
    (resultsDirExists : Bool) : RunOutcome :=
  if !wait_for_gateway env.gatewayProbe 0 60 then .notReady
  else
    match env.agentsGet with
    | .error e => .crashed e
    | .ok resp =>
      match computeAgentIds parse resp with
      | .error e => .crashed e
      | .ok agentIds =>
        let results := (schedule agentIds).map (runCall parse env)
        let counts := countResults results
        let summary : Summary := ⟨counts.1, counts.2, results⟩
        RunOutcome.finished results
          (if resultsDirExists then some summary else none)
          (counts.2 == 0)

/-- The produced `TestResult`s of a run outcome (none unless the run
reached the aggregation phase). -/
def RunOutcome.results : RunOutcome → List TestResult
  | .finished rs _ _ => rs
  | _ => []

/-- The summary document a run outcome wrote, if any. -/
def RunOutcome.summary : RunOutcome → Option Summary
  | .finished _ w _ => w
  | _ => none

/-- The gateway process exit code: `sys.exit(1)` on a non-ready gateway,
exit code 1 for an unhandled exception escaping `asyncio.run`, else
`sys.exit(0 if success else 1)` (lines 369–371). -/
def gatewayExit : RunOutcome → Nat
  | .notReady => 1
  | .crashed _ => 1
  | .finished _ _ success => if success then 0 else 1

/-- Number of failed results in a list (the spec's "failed count"). -/
def failedCount (results : List TestResult) : Nat :=
  (results.filter (fun r => !r.passed)).length

/-! ## Jail runner (`src/.scratch-archive/fold-swarm/test-jail-integration.py`)

The jail scenarios do not build `TestResult`s: they print and either
return normally (pass) or raise.  A raised `AssertionError` or any other
exception is modelled as the `Except.error` branch; `run_all_tests`
catches both (lines 166–171) and aborts the remaining scenarios. -/

/-- What a jail scenario raised, when it raised. -/
inductive JailErr where
  | assertionError (msg : String)
  | exception (msg : String)
deriving Repr, DecidableEq

/-- Outcome of the awaited `ws.recv()` of a jail scenario: a received
frame, an `asyncio.TimeoutError` from `wait_for`, or a `ConnectionClosed`
raised because the server closed the socket without replying. -/
inductive RecvOutcome where
  | reply (raw : String)
  | timeout
  | closed (e : Err)
deriving Repr, DecidableEq

/-- `test_connection` (lines 41–48): pass iff the connect itself did not
raise; nothing is caught inside the scenario. -/
def test_connection (conn : Except Err Unit) : Except JailErr Unit :=
  match conn with
  | .ok _ => .ok ()
  | .error e => .error (.exception e)

/-- The allowed reply kinds of the protocol round trip (line 75). -/
def allowedType (t : Json) : Bool :=
  t.eqStr "text" || t.eqStr "tool_use" || t.eqStr "done" || t.eqStr "error"

/-- `test_query_message_protocol` (lines 51–87).  The sent query carries
`channel_id = "test-channel-123"`.  On a reply: `json.loads` may raise;
`response.get("type")` raises on a non-dict; the `assert`s check the type
is allowed and the echoed channel id matches.  `asyncio.TimeoutError` is
caught and passes (returning `None`); a `ConnectionClosed` is not caught. -/
def test_query_message_protocol (parse : String → Option Json)
    (recv : RecvOutcome) : Except JailErr (Option Json) :=
  match recv with
  | .timeout => .ok none
  | .closed e => .error (.exception e)
  | .reply raw =>
    match parse raw with
    | none => .error (.exception "JSONDecodeError")
    | some response =>
      match pyGet response "type" with
      | .error e => .error (.exception e)
      | .ok t =>
        if allowedType t then
          match pyGet response "channel_id" with
          | .error e => .error (.exception e)
          | .ok c =>
            if c.eqStr "test-channel-123" then .ok (some response)
            else .error (.assertionError "Channel ID should match")
        else
          .error (.assertionError "Unexpected response type")

/-- `test_close_session` (lines 90–105): send `close_session`, sleep, pass
unconditionally — unless the send itself raised. -/
def test_close_session (send : Except Err Unit) : Except JailErr Unit :=
  match send with
  | .ok _ => .ok ()
  | .error e => .error (.exception e)

/-- `test_invalid_message` (lines 108–136): after sending
`{"type": "invalid_type"}`, a reply must have `type == "error"`
(`AssertionError` otherwise); a timeout is caught and passes; a
`ConnectionClosed` from `ws.recv()` is NOT caught — only
`asyncio.TimeoutError` is — so it propagates. -/
def test_invalid_message (parse : String → Option Json)
    (recv : RecvOutcome) : Except JailErr Unit :=
  match recv with
  | .timeout => .ok ()
  | .closed e => .error (.exception e)
  | .reply raw =>
    match parse raw with
    | none => .error (.exception "JSONDecodeError")
    | some response =>
      match pyGet response "type" with
      | .error e => .error (.exception e)
      | .ok t =>
        if t.eqStr "error" then .ok ()
        else .error (.assertionError "Should return error for invalid message")

/-- The network oracle for one jail run: the prober attempts and each
scenario's interaction outcome. -/
structure JailEnv where
  serverProbe : Nat → ConnectOutcome
  connOutcome : Except Err Unit
  queryRecv : RecvOutcome
  closeSend : Except Err Unit
  invalidRecv : RecvOutcome

/-- Observables of one jail run: the returned boolean, which scenarios
were entered (in order), and how many of them raised. -/
structure JailRun where
  success : Bool
  executed : List String
  failures : Nat
deriving Repr, DecidableEq

/-- `run_all_tests` (lines 139–172): the prober gates entry — its call at
line 147 sits OUTSIDE the `try`, so an exception it does not swallow
propagates out of `run_all_tests` (the `Except.error` result).  The four
scenarios then run sequentially inside ONE `try`, so the first scenario
that raises is caught at lines 166–171, the remaining scenarios are
skipped, and the run returns `False`. -/
def run_all_tests (parse : String → Option Json) (env : JailEnv) :
    Except Err JailRun :=
  match wait_for_server env.serverProbe 0 50 with
  | .error e => .error e
  | .ok false => .ok ⟨false, [], 0⟩
  | .ok true =>
    match test_connection env.connOutcome with
    | .error _ => .ok ⟨false, ["connection"], 1⟩
    | .ok _ =>
      match test_query_message_protocol parse env.queryRecv with
      | .error _ => .ok ⟨false, ["connection", "query"], 1⟩
      | .ok _ =>
        match test_close_session env.closeSend with
        | .error _ => .ok ⟨false, ["connection", "query", "close"], 1⟩
        | .ok _ =>
          match test_invalid_message parse env.invalidRecv with
          | .error _ =>
              .ok ⟨false, ["connection", "query", "close", "invalid"], 1⟩
          | .ok _ =>
              .ok ⟨true, ["connection", "query", "close", "invalid"], 0⟩

/-- The jail process exit code (`main`, lines 175–181):
`sys.exit(0 if success else 1)`, or the interpreter's exit code 1 when an
exception escapes `asyncio.run`. -/
def jailExit (parse : String → Option Json) (env : JailEnv) : Nat :=
  match run_all_tests parse env with
  | .error _ => 1
  | .ok r => if r.success then 0 else 1

/-! ## Helper lemmas -/

/-- The gateway prober succeeds within its fuel iff some attempt in the
window returns HTTP 200. -/
theorem wait_for_gateway_eq_true_iff (probe : Nat → ProbeResult) :
    ∀ (fuel a : Nat),
      wait_for_gateway probe a fuel = true ↔
        ∃ i, i < fuel ∧ probeSuccess (probe (a + i)) = true := by
  intro fuel
  induction fuel with
  | zero =>
    intro a
    constructor
    · intro h; simp [wait_for_gateway] at h
    · rintro ⟨i, hi, _⟩; omega
  | succ n ih =>
    intro a
    rw [show wait_for_gateway probe a (n + 1) =
        (match probe a with
          | .ok r =>
              if r.statusCode == 200 then true
              else wait_for_gateway probe (a + 1) n
          | .exn _ => wait_for_gateway probe (a + 1) n) from rfl]
    cases hp : probe a with
    | ok r =>
      cases hs : (r.statusCode == 200) with
      | true =>
        simp only [hs, if_true]
        constructor
        · intro _
          exact ⟨0, by omega, by simp [probeSuccess, hp, hs]⟩
        · intro _; trivial
      | false =>
        simp only [hs, Bool.false_eq_true, if_false]
        rw [ih (a + 1)]
        constructor
        · rintro ⟨i, hi, h⟩
          exact ⟨i + 1, by omega,
            by rw [show a + (i + 1) = a + 1 + i by omega]; exact h⟩
        · rintro ⟨i, hi, h⟩
          match i with
          | 0 =>
            rw [Nat.add_zero, hp] at h
            simp [probeSuccess, hs] at h
          | j + 1 =>
            exact ⟨j, by omega,
              by rw [show a + 1 + j = a + (j + 1) by omega]; exact h⟩
    | exn e =>
      rw [ih (a + 1)]
      constructor
      · rintro ⟨i, hi, h⟩
        exact ⟨i + 1, by omega,
          by rw [show a + (i + 1) = a + 1 + i by omega]; exact h⟩
      · rintro ⟨i, hi, h⟩
        match i with
        | 0 =>
          rw [Nat.add_zero, hp] at h
          simp [probeSuccess] at h
        | j + 1 =>
          exact ⟨j, by omega,
            by rw [show a + 1 + j = a + (j + 1) by omega]; exact h⟩

/-- The jail prober reports ready within its fuel iff some attempt in the
window connects and every earlier attempt fails with a swallowed
connection failure (an uncaught exception would abort the loop
instead). -/
theorem wait_for_server_ok_true_iff (probe : Nat → ConnectOutcome) :
    ∀ (fuel a : Nat),
      wait_for_server probe a fuel = Except.ok true ↔
        ∃ i, i < fuel ∧ probe (a + i) = .connected ∧
          ∀ j, j < i → ∃ e, probe (a + j) = .connFail e := by
  intro fuel
  induction fuel with
  | zero =>
    intro a
    constructor
    · intro h; simp [wait_for_server] at h
    · rintro ⟨i, hi, _⟩; omega
  | succ n ih =>
    intro a
    rw [show wait_for_server probe a (n + 1) =
        (match probe a with
          | .connected => .ok true
          | .connFail _ => wait_for_server probe (a + 1) n
          | .otherExn e => .error e) from rfl]
    cases hp : probe a with
    | connected =>
      constructor
      · intro _
        exact ⟨0, by omega, by rw [Nat.add_zero]; exact hp,
          fun j hj => absurd hj (by omega)⟩
      · intro _; rfl
    | connFail e =>
      rw [ih (a + 1)]
      constructor
      · rintro ⟨i, hi, hc, hf⟩
        refine ⟨i + 1, by omega,
          by rw [show a + (i + 1) = a + 1 + i by omega]; exact hc, ?_⟩
        intro j hj
        match j with
        | 0 => exact ⟨e, by rw [Nat.add_zero]; exact hp⟩
        | k + 1 =>
          obtain ⟨e', he'⟩ := hf k (by omega)
          exact ⟨e',
            by rw [show a + (k + 1) = a + 1 + k by omega]; exact he'⟩
      · rintro ⟨i, hi, hc, hf⟩
        match i with
        | 0 =>
          rw [Nat.add_zero, hp] at hc
          exact absurd hc (by simp)
        | k + 1 =>
          refine ⟨k, by omega,
            by rw [show a + 1 + k = a + (k + 1) by omega]; exact hc, ?_⟩
          intro j hj
          obtain ⟨e', he'⟩ := hf (j + 1) (by omega)
          exact ⟨e',
            by rw [show a + 1 + j = a + (j + 1) by omega]; exact he'⟩
    | otherExn e =>
      constructor
      · intro h; exact absurd h (by simp)
      · rintro ⟨i, hi, hc, hf⟩
        match i with
        | 0 =>
          rw [Nat.add_zero, hp] at hc
          exact absurd hc (by simp)
        | k + 1 =>
          obtain ⟨e', he'⟩ := hf 0 (by omega)
          rw [Nat.add_zero, hp] at he'
          exact absurd he' (by simp)

/-- The counting loop splits a list into its passed and failed counts. -/
theorem countResults_go (l : List TestResult) :
    ∀ p f, l.foldl
        (fun acc r =>
          if r.passed then (acc.1 + 1, acc.2) else (acc.1, acc.2 + 1))
        (p, f)
      = (p + (l.filter (fun r => r.passed)).length,
         f + (l.filter (fun r => !r.passed)).length) := by
  induction l with
  | nil => intro p f; simp
  | cons r rs ih =>
    intro p f
    cases hr : r.passed <;> simp [List.foldl_cons, hr, ih] <;> omega

/-- `countResults` computes the passed-filter and failed-filter lengths. -/
theorem countResults_eq (l : List TestResult) :
    countResults l
      = ((l.filter (fun r => r.passed)).length, failedCount l) := by
  simpa [countResults, failedCount] using countResults_go l 0 0

/-- Passed and failed counts sum to the number of results. -/
theorem countResults_sum (l : List TestResult) :
    (countResults l).1 + (countResults l).2 = l.length := by
  rw [countResults_eq]
  induction l with
  | nil => simp [failedCount]
  | cons r rs ih =>
    cases hr : r.passed <;>
      simp [failedCount, List.filter, hr] at ih ⊢ <;> omega

/-! ## Claim C4 — readiness probers and what they swallow -/

/-- C4 counterexample: the jail prober does NOT hold "never raises" for
every input URL — its `except` catches only `(ConnectionRefusedError,
OSError)`, so an attempt whose `websockets.connect` raises anything else
(here an `InvalidHandshake`, e.g. from a listener answering with a
non-WebSocket response; an `InvalidURI` on a malformed URL behaves the
same) propagates out of the prober instead of yielding a boolean. -/
theorem c4_counterexample :
    wait_for_server (fun _ => ConnectOutcome.otherExn
        "InvalidHandshake: did not receive a valid HTTP response") 0 50
      = Except.error
          "InvalidHandshake: did not receive a valid HTTP response" ∧
    ∀ b : Bool,
      wait_for_server (fun _ => ConnectOutcome.otherExn
          "InvalidHandshake: did not receive a valid HTTP response") 0 50
        ≠ Except.ok b := by
  refine ⟨rfl, ?_⟩
  intro b h
  rw [show wait_for_server (fun _ => ConnectOutcome.otherExn
      "InvalidHandshake: did not receive a valid HTTP response") 0 50
    = Except.error
        "InvalidHandshake: did not receive a valid HTTP response"
    from rfl] at h
  exact Except.noConfusion h

/-- C4 amended: the gateway prober (`except Exception`) returns a boolean
and never raises — every exception is swallowed and treated as "not yet
ready", and it returns `true` exactly when some attempt within the
deadline answers 200.  The jail prober swallows ONLY connection failures
(`ConnectionRefusedError` / `OSError`), continuing to the next attempt;
a success returns `True`, an elapsed deadline returns `False`, and it
reports ready exactly when some attempt connects with every earlier
attempt a swallowed connection failure; but any other exception from
`websockets.connect` is not caught and propagates out of the prober. -/
theorem c4_prober_amended :
    (∀ (probe : Nat → ProbeResult) (a fuel : Nat) (e : Err),
        probe a = .exn e →
        wait_for_gateway probe a (fuel + 1)
          = wait_for_gateway probe (a + 1) fuel) ∧
    (∀ (probe : Nat → ProbeResult) (fuel : Nat),
        wait_for_gateway probe 0 fuel = true ↔
          ∃ i, i < fuel ∧ probeSuccess (probe i) = true) ∧
    (∀ (probe : Nat → ConnectOutcome) (a fuel : Nat) (e : Err),
        probe a = .connFail e →
        wait_for_server probe a (fuel + 1)
          = wait_for_server probe (a + 1) fuel) ∧
    (∀ (probe : Nat → ConnectOutcome) (a fuel : Nat) (e : Err),
        probe a = .otherExn e →
        wait_for_server probe a (fuel + 1) = Except.error e) ∧
    (∀ (probe : Nat → ConnectOutcome) (a : Nat),
        wait_for_server probe a 0 = Except.ok false) ∧
    (∀ (probe : Nat → ConnectOutcome) (fuel : Nat),
        wait_for_server probe 0 fuel = Except.ok true ↔
          ∃ i, i < fuel ∧ probe i = .connected ∧
            ∀ j, j < i → ∃ e, probe j = .connFail e) := by
  refine ⟨?_, ?_, ?_, ?_, ?_, ?_⟩
  · intro probe a fuel e h
    rw [show wait_for_gateway probe a (fuel + 1) =
        (match probe a with
          | .ok r =>
              if r.statusCode == 200 then true
              else wait_for_gateway probe (a + 1) fuel
          | .exn _ => wait_for_gateway probe (a + 1) fuel) from rfl, h]
  · intro probe fuel
    simpa using wait_for_gateway_eq_true_iff probe fuel 0
  · intro probe a fuel e h
    rw [show wait_for_server probe a (fuel + 1) =
        (match probe a with
          | .connected => .ok true
          | .connFail _ => wait_for_server probe (a + 1) fuel
          | .otherExn e => .error e) from rfl, h]
  · intro probe a fuel e h
    rw [show wait_for_server probe a (fuel + 1) =
        (match probe a with
          | .connected => .ok true
          | .connFail _ => wait_for_server probe (a + 1) fuel
          | .otherExn e => .error e) from rfl, h]
  · intro probe a
    rfl
  · intro probe fuel
    simpa using wait_for_server_ok_true_iff probe fuel 0

/-- Witness for C4 at concrete probe oracles: a swallowed gateway
exception steps to the next attempt; an immediately healthy gateway is
ready within 60 attempts; a swallowed connection refusal steps to the
next attempt; an `InvalidURI` propagates out of the jail prober; an
immediately answering jail server is ready; a never-ready jail server
yields `false` after the 50-attempt deadline. -/
theorem c4_witness :
    wait_for_gateway (fun _ => ProbeResult.exn "ConnectionError") 0 1
      = wait_for_gateway (fun _ => ProbeResult.exn "ConnectionError") 1 0 ∧
    wait_for_gateway (fun _ => ProbeResult.ok ⟨200, ""⟩) 0 60 = true ∧
    wait_for_server (fun _ => ConnectOutcome.connFail "refused") 0 1
      = wait_for_server (fun _ => ConnectOutcome.connFail "refused") 1 0 ∧
    wait_for_server (fun _ => ConnectOutcome.otherExn "InvalidURI") 0 10
      = Except.error "InvalidURI" ∧
    wait_for_server (fun _ => ConnectOutcome.connected) 0 50
      = Except.ok true ∧
    wait_for_server (fun _ => ConnectOutcome.connFail "refused") 0 50
      = Except.ok false :=
  ⟨c4_prober_amended.1 _ 0 0 "ConnectionError" rfl,
    (c4_prober_amended.2.1 _ 60).mpr ⟨0, by omega, rfl⟩,
    c4_prober_amended.2.2.1 _ 0 0 "refused" rfl,
    c4_prober_amended.2.2.2.1 _ 0 9 "InvalidURI" rfl,
    (c4_prober_amended.2.2.2.2.2 _ 50).mpr
      ⟨0, by omega, rfl, fun j hj => absurd hj (by omega)⟩,
    rfl⟩

/-! ## Claim C5 — invalid-input scenario vs a closing connection -/

/-- C5 (code bug): the claim — and the script's own narration ("No
response (server may close connection) … PASSED (graceful handling)") —
say that after sending `{"type": "invalid_type"}` the scenario passes both
when an error-kind reply arrives and when the connection closes without a
reply.  The code passes on an error reply and on a timeout, but a
connection close makes `ws.recv()` raise `ConnectionClosed`, which the
`except asyncio.TimeoutError` clause does not catch, so the scenario
raises instead of passing. -/
theorem c5_connection_close_raises :
    test_invalid_message (fun _ => none)
        (RecvOutcome.closed "ConnectionClosedOK: received 1000 (OK)")
      = Except.error
          (JailErr.exception "ConnectionClosedOK: received 1000 (OK)") ∧
    test_invalid_message
        (fun s =>
          if s = "ERR" then some (.obj [("type", .str "error")]) else none)
        (RecvOutcome.reply "ERR") = Except.ok () ∧
    test_invalid_message (fun _ => none) RecvOutcome.timeout
      = Except.ok () :=
  ⟨rfl, rfl, rfl⟩

/-! ## Claim C9 — the fan-out schedule -/

/-- The target list of a scheduled call, when the call is the fan-out. -/
def parallelTargets : Call → Option (List Json)
  | .parallel as => some as
  | _ => none

/-- C9: `test_parallel_messages` is scheduled only when at least two
agents are registered, and then exactly once, over exactly the first two
agent ids of the fetched list — never over all `N` agents when more than
two are registered. -/
theorem c9_fanout_schedule (ids : List Json) :
    ((schedule ids).filterMap parallelTargets
        = if 2 ≤ ids.length then [ids.take 2] else []) ∧
    (2 < ids.length →
      ∀ as ∈ (schedule ids).filterMap parallelTargets, as ≠ ids) := by
  have hflat : ∀ l : List Json,
      (l.flatMap fun a =>
        [Call.simple a, Call.logEntry a, Call.logSearch a]).filterMap
          parallelTargets = [] := by
    intro l
    induction l with
    | nil => simp
    | cons a l ih => simp [List.flatMap_cons, List.filterMap_append, ih,
        parallelTargets]
  have hmain : (schedule ids).filterMap parallelTargets
      = if 2 ≤ ids.length then [ids.take 2] else [] := by
    by_cases h2 : 2 ≤ ids.length <;>
      simp [schedule, List.filterMap_append, hflat, parallelTargets, h2]
  refine ⟨hmain, ?_⟩
  intro h2 as has heq
  rw [hmain, if_pos (Nat.le_of_lt h2)] at has
  simp only [List.mem_singleton] at has
  subst has
  apply_fun List.length at heq
  simp [List.length_take] at heq
  omega

/-- Witness for C9 at three registered agents: the schedule holds exactly
one fan-out call, over the first two ids only, and its target list is not
the full agent list. -/
theorem c9_witness :
    (schedule [Json.str "a1", Json.str "a2", Json.str "a3"]).filterMap
        parallelTargets = [[Json.str "a1", Json.str "a2"]] ∧
    ∀ as ∈ (schedule
        [Json.str "a1", Json.str "a2", Json.str "a3"]).filterMap
          parallelTargets,
      as ≠ [Json.str "a1", Json.str "a2", Json.str "a3"] := by
  refine ⟨?_, (c9_fanout_schedule _).2 (by simp)⟩
  rw [(c9_fanout_schedule _).1]
  simp

/-! ## Claim C10 — the agent-discovery GET is unguarded -/

/-- C10: if the `GET /api/agents` issued by `run_tests` after the
readiness probe succeeds raises, the exception is unhandled: the run ends
as `crashed`, before any `TestResult` exists, before the results table,
and before the summary file; the process exit code is the interpreter's 1
for an uncaught exception. -/
theorem c10_agents_get_unhandled (parse : String → Option Json)
    (env : GatewayEnv) (dirExists : Bool) (e : Err)
    (hready : wait_for_gateway env.gatewayProbe 0 60 = true)
    (hget : env.agentsGet = .error e) :
    run_tests parse env dirExists = .crashed e ∧
    (run_tests parse env dirExists).results = [] ∧
    (run_tests parse env dirExists).summary = none ∧
    gatewayExit (run_tests parse env dirExists) = 1 := by
  have h : run_tests parse env dirExists = .crashed e := by
    simp [run_tests, hready, hget]
  exact ⟨h, by rw [h]; rfl, by rw [h]; rfl, by rw [h]; rfl⟩

/-- A gateway environment whose readiness probe always answers 200 but
whose agent-discovery GET raises. -/
def gwEnvBoom : GatewayEnv :=
  ⟨fun _ => .ok ⟨200, ""⟩, .error "boom", .ok ⟨200, ""⟩, .ok ⟨200, "[]"⟩,
    fun _ => .error "unused", fun _ => .error "unused",
    fun _ => .error "unused", fun _ => .error "unused"⟩

/-- Witness for C10: with a ready gateway and a raising agent GET, the
concrete run crashes with the exception and exits 1. -/
theorem c10_witness :
    run_tests (fun _ => none) gwEnvBoom true = RunOutcome.crashed "boom" ∧
    (run_tests (fun _ => none) gwEnvBoom true).results = [] ∧
    (run_tests (fun _ => none) gwEnvBoom true).summary = none ∧
    gatewayExit (run_tests (fun _ => none) gwEnvBoom true) = 1 :=
  c10_agents_get_unhandled (fun _ => none) gwEnvBoom true "boom" rfl rfl

/-! ## Claim C8 — the JSON summary document -/

/-- C8: the summary document is written exactly when the fixed output
path's parent directory exists, and whenever it is written it satisfies
`passed + failed == len(results)`, with `passed` and `failed` the counts
of results with `passed` true resp. false. -/
theorem c8_summary_invariant (parse : String → Option Json)
    (env : GatewayEnv) (dirExists : Bool) (rs : List TestResult)
    (sw : Option Summary) (b : Bool)
    (h : run_tests parse env dirExists = .finished rs sw b) :
    (sw.isSome ↔ dirExists = true) ∧
    ∀ s, sw = some s →
      s.passed + s.failed = s.results.length ∧
      s.results = rs ∧
      s.passed = (rs.filter (fun r => r.passed)).length ∧
      s.failed = failedCount rs := by
  unfold run_tests at h
  split at h
  · exact absurd h (by simp)
  · split at h
    · exact absurd h (by simp)
    · split at h
      · exact absurd h (by simp)
      · rw [RunOutcome.finished.injEq] at h
        obtain ⟨hrs, hsw, _⟩ := h
        subst hrs
        subst hsw
        cases dirExists with
        | false => simp
        | true =>
          refine ⟨by simp, ?_⟩
          intro s hs
          simp only [if_true, Option.some.injEq] at hs
          subst hs
          exact ⟨countResults_sum _, rfl, by simp [countResults_eq],
            by simp [countResults_eq]⟩

/-- A gateway environment for which the run completes: ready probe, an
empty agent registry, both infrastructure endpoints healthy. -/
def gwEnvOk : GatewayEnv :=
  ⟨fun _ => .ok ⟨200, ""⟩, .ok ⟨200, "[]"⟩, .ok ⟨200, ""⟩, .ok ⟨200, "[]"⟩,
    fun _ => .error "unused", fun _ => .error "unused",
    fun _ => .error "unused", fun _ => .error "unused"⟩

/-- A parse oracle behaving like `json.loads` on the bodies the concrete
environments use (`"[]"` is the empty JSON array). -/
def parseEmptyList : String → Option Json :=
  fun s => if s = "[]" then some (.arr []) else none

/-- Witness for C8 at the concrete completing run: the summary is written
(`/results` exists) and its counts are 2 passed, 0 failed over 2
results. -/
theorem c8_witness :
    run_tests parseEmptyList gwEnvOk true
      = RunOutcome.finished
          [⟨"gateway-health", true, 0, none⟩, ⟨"agent-list", true, 0, none⟩]
          (some ⟨2, 0,
            [⟨"gateway-health", true, 0, none⟩,
             ⟨"agent-list", true, 0, none⟩]⟩)
          true ∧
    (2 : Nat) + 0 =
      ([⟨"gateway-health", true, 0, none⟩,
        ⟨"agent-list", true, 0, none⟩] : List TestResult).length := by
  refine ⟨rfl, ?_⟩
  have h := (c8_summary_invariant parseEmptyList gwEnvOk true
      [⟨"gateway-health", true, 0, none⟩, ⟨"agent-list", true, 0, none⟩]
      (some ⟨2, 0,
        [⟨"gateway-health", true, 0, none⟩,
         ⟨"agent-list", true, 0, none⟩]⟩)
      true rfl).2 _ rfl
  exact h.1

/-! ## Claim C3 — exit code vs failed count -/

/-- C3 counterexample: a run whose readiness probe succeeds but whose
agent-discovery GET raises produces NO `TestResult`s — so the failed
count over all produced results is 0 — yet exits 1, refuting "exit code
is 0 iff the failed count over all produced TestResults is exactly 0"
(the claim's parenthetical covers only the non-ready case). -/
theorem c3_counterexample :
    failedCount ((run_tests (fun _ => none) gwEnvBoom true).results) = 0 ∧
    gatewayExit (run_tests (fun _ => none) gwEnvBoom true) = 1 :=
  ⟨rfl, rfl⟩

/-- C3 amended: for gateway runs that reach the aggregation phase, the
exit code is 0 iff the failed count is 0; a non-ready gateway exits 1; an
unhandled exception before the scenarios (agent discovery) exits 1 with
no `TestResult` produced.  For the jail runner: once the server is ready,
the exit code is 0 iff no scenario raised; a non-ready server exits 1
with no scenario executed. -/
theorem c3_exit_code_amended :
    (∀ (parse : String → Option Json) (env : GatewayEnv) (dirExists : Bool)
        (rs : List TestResult) (sw : Option Summary) (b : Bool),
        run_tests parse env dirExists = RunOutcome.finished rs sw b →
        (gatewayExit (run_tests parse env dirExists) = 0 ↔
          failedCount rs = 0)) ∧
    (∀ (parse : String → Option Json) (env : GatewayEnv) (dirExists : Bool),
        run_tests parse env dirExists = RunOutcome.notReady →
        gatewayExit (run_tests parse env dirExists) = 1 ∧
        (run_tests parse env dirExists).results = []) ∧
    (∀ (parse : String → Option Json) (env : GatewayEnv) (dirExists : Bool)
        (e : Err),
        run_tests parse env dirExists = RunOutcome.crashed e →
        gatewayExit (run_tests parse env dirExists) = 1 ∧
        (run_tests parse env dirExists).results = []) ∧
    (∀ (parse : String → Option Json) (env : JailEnv),
        wait_for_server env.serverProbe 0 50 = Except.ok true →
        ∃ r, run_all_tests parse env = Except.ok r ∧
          (jailExit parse env = 0 ↔ r.failures = 0)) ∧
    (∀ (parse : String → Option Json) (env : JailEnv),
        wait_for_server env.serverProbe 0 50 = Except.ok false →
        jailExit parse env = 1 ∧
        run_all_tests parse env = Except.ok ⟨false, [], 0⟩) ∧
    (∀ (parse : String → Option Json) (env : JailEnv) (e : Err),
        wait_for_server env.serverProbe 0 50 = Except.error e →
        jailExit parse env = 1 ∧
        run_all_tests parse env = Except.error e) := by
  refine ⟨?_, ?_, ?_, ?_, ?_, ?_⟩
  · intro parse env dirExists rs sw b h
    rw [h, gatewayExit]
    have hb : b = (failedCount rs == 0) := by
      revert h
      unfold run_tests
      split
      · intro h; exact absurd h (by simp)
      · split
        · intro h; exact absurd h (by simp)
        · split
          · intro h; exact absurd h (by simp)
          · intro h
            rw [RunOutcome.finished.injEq] at h
            obtain ⟨hrs, _, hb⟩ := h
            rw [← hb, ← hrs]
            rw [show ∀ l, (countResults l).2 = failedCount l from
              fun l => by simp [countResults_eq]]
    subst hb
    cases hfc : (failedCount rs == 0) with
    | true =>
      have h0 : failedCount rs = 0 := by simpa using hfc
      simp [h0]
    | false =>
      have h0 : failedCount rs ≠ 0 := by simpa using hfc
      simp [h0]
  · intro parse env dirExists h
    rw [h]; exact ⟨rfl, rfl⟩
  · intro parse env dirExists e h
    rw [h]; exact ⟨rfl, rfl⟩
  · intro parse env hready
    cases h1 : test_connection env.connOutcome with
    | error e =>
      have hrun : run_all_tests parse env = .ok ⟨false, ["connection"], 1⟩ := by
        unfold run_all_tests
        rw [hready, h1]
      exact ⟨_, hrun, by unfold jailExit; rw [hrun]; simp⟩
    | ok u =>
      cases h2 : test_query_message_protocol parse env.queryRecv with
      | error e =>
        have hrun : run_all_tests parse env
            = .ok ⟨false, ["connection", "query"], 1⟩ := by
          unfold run_all_tests
          rw [hready, h1, h2]
        exact ⟨_, hrun, by unfold jailExit; rw [hrun]; simp⟩
      | ok r =>
        cases h3 : test_close_session env.closeSend with
        | error e =>
          have hrun : run_all_tests parse env
              = .ok ⟨false, ["connection", "query", "close"], 1⟩ := by
            unfold run_all_tests
            rw [hready, h1, h2, h3]
          exact ⟨_, hrun, by unfold jailExit; rw [hrun]; simp⟩
        | ok u2 =>
          cases h4 : test_invalid_message parse env.invalidRecv with
          | error e =>
            have hrun : run_all_tests parse env
                = .ok ⟨false,
                    ["connection", "query", "close", "invalid"], 1⟩ := by
              unfold run_all_tests
              rw [hready, h1, h2, h3, h4]
            exact ⟨_, hrun, by unfold jailExit; rw [hrun]; simp⟩
          | ok u3 =>
            have hrun : run_all_tests parse env
                = .ok ⟨true,
                    ["connection", "query", "close", "invalid"], 0⟩ := by
              unfold run_all_tests
              rw [hready, h1, h2, h3, h4]
            exact ⟨_, hrun, by unfold jailExit; rw [hrun]; simp⟩
  · intro parse env hnot
    have hrun : run_all_tests parse env = .ok ⟨false, [], 0⟩ := by
      unfold run_all_tests
      rw [hnot]
    exact ⟨by unfold jailExit; rw [hrun]; simp, hrun⟩
  · intro parse env e herr
    have hrun : run_all_tests parse env = .error e := by
      unfold run_all_tests
      rw [herr]
    exact ⟨by unfold jailExit; rw [hrun], hrun⟩

/-- A jail environment where the server is ready and every scenario
passes (reply-free soft passes for both recv-based scenarios). -/
def jailEnvOk : JailEnv :=
  ⟨fun _ => .connected, .ok (), .timeout, .ok (), .timeout⟩

/-- Witness for C3 at concrete runs: a completing all-pass gateway run
exits 0, and an all-pass jail run exits 0. -/
theorem c3_witness :
    gatewayExit (run_tests parseEmptyList gwEnvOk true) = 0 ∧
    jailExit (fun _ => none) jailEnvOk = 0 := by
  refine ⟨(c3_exit_code_amended.1 parseEmptyList gwEnvOk true
      [⟨"gateway-health", true, 0, none⟩, ⟨"agent-list", true, 0, none⟩]
      (some ⟨2, 0,
        [⟨"gateway-health", true, 0, none⟩,
         ⟨"agent-list", true, 0, none⟩]⟩)
      true rfl).mpr rfl, ?_⟩
  obtain ⟨r, hrun, hiff⟩ :=
    c3_exit_code_amended.2.2.2.1 (fun _ => none) jailEnvOk rfl
  have h2 : Except.ok r = Except.ok
      (⟨true, ["connection", "query", "close", "invalid"], 0⟩ : JailRun) :=
    hrun.symm.trans rfl
  rw [Except.ok.injEq] at h2
  exact hiff.mpr (by rw [h2])

/-! ## Claim C7 — the protocol round trip -/

/-- Did a jail scenario return normally (no exception, no failed
assertion)? -/
def jailPasses : Except JailErr α → Bool
  | .ok _ => true
  | .error _ => false

/-- `Json.eqStr` decides equality with a string literal. -/
theorem Json.eqStr_iff_eq (c : Json) (s : String) :
    c.eqStr s = true ↔ c = .str s := by
  cases c <;> simp [Json.eqStr]

/-- C7: the round-trip scenario passes iff either a reply arrives whose
`type` is one of `text`/`tool_use`/`done`/`error` and whose `channel_id`
equals `"test-channel-123"`, or the timeout expires with no reply (soft
pass).  Every other outcome — a malformed reply, a reply of another
shape, or a closed connection — raises, and the scenario does not pass. -/
theorem c7_protocol_roundtrip (parse : String → Option Json)
    (recv : RecvOutcome) :
    jailPasses (test_query_message_protocol parse recv) = true ↔
      recv = RecvOutcome.timeout ∨
      ∃ raw response,
        recv = RecvOutcome.reply raw ∧ parse raw = some response ∧
        (∃ t, pyGet response "type" = Except.ok t ∧ allowedType t = true) ∧
        pyGet response "channel_id"
          = Except.ok (Json.str "test-channel-123") := by
  cases recv with
  | timeout => simp [test_query_message_protocol, jailPasses]
  | closed e => simp [test_query_message_protocol, jailPasses]
  | reply raw =>
    cases hp : parse raw with
    | none => simp [test_query_message_protocol, jailPasses, hp]
    | some response =>
      cases response with
      | obj fs =>
        constructor
        · intro hpass
          cases hT : allowedType ((jsonLookup fs "type").getD Json.null) with
          | false =>
            exfalso
            rw [show test_query_message_protocol parse (.reply raw)
                = .error (.assertionError "Unexpected response type") from by
              simp [test_query_message_protocol, hp, pyGet, hT]] at hpass
            simp [jailPasses] at hpass
          | true =>
            cases hC : ((jsonLookup fs "channel_id").getD Json.null).eqStr
                "test-channel-123" with
            | false =>
              exfalso
              rw [show test_query_message_protocol parse (.reply raw)
                  = .error (.assertionError "Channel ID should match") from by
                simp [test_query_message_protocol, hp, pyGet, hT, hC]] at hpass
              simp [jailPasses] at hpass
            | true =>
              refine Or.inr ⟨raw, .obj fs, rfl, hp,
                ⟨(jsonLookup fs "type").getD Json.null, by simp [pyGet], hT⟩,
                ?_⟩
              rw [Json.eqStr_iff_eq] at hC
              simp [pyGet, hC]
        · rintro (h | ⟨raw2, resp, hr, hpar, ⟨t, hty, hT⟩, hch⟩)
          · exact absurd h (by simp)
          · obtain rfl : raw = raw2 := by
              injection hr
            rw [hp, Option.some.injEq] at hpar
            subst hpar
            simp only [pyGet, Except.ok.injEq] at hty hch
            subst hty
            simp [test_query_message_protocol, hp, pyGet, hT, jailPasses,
              hch, Json.eqStr]
      | null => simp [test_query_message_protocol, jailPasses, hp, pyGet]
      | bool b => simp [test_query_message_protocol, jailPasses, hp, pyGet]
      | num n => simp [test_query_message_protocol, jailPasses, hp, pyGet]
      | str s => simp [test_query_message_protocol, jailPasses, hp, pyGet]
      | arr xs => simp [test_query_message_protocol, jailPasses, hp, pyGet]

/-- A parse oracle for the C7 witness: `"R"` decodes to a well-formed
`done` reply echoing the test channel. -/
def parseDoneReply : String → Option Json :=
  fun s =>
    if s = "R" then
      some (.obj [("type", .str "done"),
                  ("channel_id", .str "test-channel-123")])
    else none

/-- Witness for C7: a soft pass on timeout, and a pass on a concrete
well-formed `done` reply with the matching channel id. -/
theorem c7_witness :
    jailPasses (test_query_message_protocol (fun _ => none)
      RecvOutcome.timeout) = true ∧
    jailPasses (test_query_message_protocol parseDoneReply
      (RecvOutcome.reply "R")) = true :=
  ⟨(c7_protocol_roundtrip (fun _ => none) RecvOutcome.timeout).mpr
      (Or.inl rfl),
    (c7_protocol_roundtrip parseDoneReply (RecvOutcome.reply "R")).mpr
      (Or.inr ⟨"R", _, rfl, rfl, ⟨Json.str "done", rfl, rfl⟩, rfl⟩)⟩

/-! ## Claim C2 — the fan-out scenario -/

/-- The specification's "yields a non-empty aggregated response" for one
fan-out leg, emptiness read as in the standalone single-target scenario:
the call returned, and `len(full_response) > 0`. -/
def nonEmptyAggregated (r : Except Err SendResult) : Prop :=
  ∃ d n, r = Except.ok d ∧ pyLen d.fullResponse = Except.ok n ∧ 0 < n

/-- Claim C2 as stated, at one input: the fan-out scenario passes iff
every concurrent call yields a non-empty aggregated response. -/
def c2Claim (parse : String → Option Json)
    (posts : List (Except Err Response)) (dur : Nat) : Prop :=
  (test_parallel_messages parse posts dur).passed = true ↔
    ∀ r ∈ posts.map (send_message parse), nonEmptyAggregated r

/-- A parse oracle whose only decodable body carries an EMPTY
`full_response`. -/
def parseEmptyFR : String → Option Json :=
  fun s =>
    if s = "FR" then some (.obj [("full_response", .str "")]) else none

/-- C2 counterexample: with one leg whose stream yields
`full_response = ""` the code passes the fan-out scenario (it only checks
`is not None`), but the aggregated response is empty, refuting the
claimed "iff every call yields a NON-EMPTY aggregated response". -/
theorem c2_counterexample :
    ¬ c2Claim parseEmptyFR [Except.ok ⟨200, "data: FR"⟩] 0 := by
  intro h
  obtain ⟨d, n, hd, hlen, hn⟩ :=
    h.mp rfl (send_message parseEmptyFR (Except.ok ⟨200, "data: FR"⟩))
      (by simp)
  rw [show send_message parseEmptyFR (Except.ok ⟨200, "data: FR"⟩)
      = Except.ok ⟨200, [Json.obj [("full_response", Json.str "")]],
          Json.str ""⟩ from rfl, Except.ok.injEq] at hd
  subst hd
  rw [show pyLen (Json.str "") = Except.ok 0 from rfl] at hlen
  rw [Except.ok.injEq] at hlen
  omega

/-- C2 amended: the fan-out scenario passes iff every concurrent call
returns without raising and its aggregated response is not `None` (an
EMPTY aggregated response still passes); if any call raises, the scenario
is recorded as failed with a generic message — the runner does not crash
— and each gathered entry depends only on its own call's outcome. -/
theorem c2_fanout_amended (parse : String → Option Json)
    (posts : List (Except Err Response)) (dur : Nat) :
    ((test_parallel_messages parse posts dur).passed = true ↔
      ∀ r ∈ posts.map (send_message parse),
        ∃ d, r = Except.ok d ∧ d.fullResponse.isNull = false) ∧
    ((∃ e, Except.error e ∈ posts.map (send_message parse)) →
      (test_parallel_messages parse posts dur).passed = false ∧
      (test_parallel_messages parse posts dur).error
        = some "Some agents failed to respond") ∧
    (∀ i : Nat, (posts.map (send_message parse))[i]?
        = (posts[i]?).map (send_message parse)) := by
  refine ⟨?_, ?_, ?_⟩
  · simp only [test_parallel_messages]
    rw [List.all_eq_true]
    constructor
    · intro h r hr
      have hp := h r hr
      cases r with
      | ok d => exact ⟨d, rfl, by simpa using hp⟩
      | error e => simp at hp
    · intro h r hr
      obtain ⟨d, rfl, hd⟩ := h r hr
      simpa using hd
  · rintro ⟨e, he⟩
    have hall : ((posts.map (send_message parse)).all fun r =>
        match r with
        | .ok d => !d.fullResponse.isNull
        | .error _ => false) = false :=
      List.all_eq_false.mpr ⟨_, he, by simp⟩
    constructor
    · simp only [test_parallel_messages]
      rw [hall]
    · simp only [test_parallel_messages]
      rw [hall]
      rfl
  · intro i
    simp

/-- Witness for C2: a fan-out whose single leg raises is recorded as a
failed `TestResult` with the generic error message. -/
theorem c2_witness :
    (test_parallel_messages (fun _ => none) [Except.error "boom"] 0).passed
      = false ∧
    (test_parallel_messages (fun _ => none) [Except.error "boom"] 0).error
      = some "Some agents failed to respond" :=
  (c2_fanout_amended (fun _ => none) [Except.error "boom"] 0).2.1
    ⟨"boom", List.mem_singleton.mpr rfl⟩

/-! ## Claim C1 — the scenario boundary -/

/-- The schedule's length: two infrastructure tests, three per agent, and
the conditional fan-out. -/
theorem schedule_length (ids : List Json) :
    (schedule ids).length
      = 2 + 3 * ids.length + (if 2 ≤ ids.length then 1 else 0) := by
  have hflat : ∀ l : List Json,
      (l.flatMap fun a =>
        [Call.simple a, Call.logEntry a, Call.logSearch a]).length
        = 3 * l.length := by
    intro l
    induction l with
    | nil => simp
    | cons a l ih =>
      simp only [List.flatMap_cons, List.length_append, ih,
        List.length_cons, List.length_nil]
      ring
  by_cases h2 : 2 ≤ ids.length <;>
    simp [schedule, hflat, h2] <;> ring

/-- A jail environment whose server is ready but whose very first
scenario's connect raises. -/
def jailEnvBoom : JailEnv :=
  ⟨fun _ => .connected, .error "boom", .timeout, .ok (), .timeout⟩

/-- C1 counterexample: in the jail runner an exception in the first
scenario is NOT converted into a result at the scenario boundary —
`run_all_tests` catches it and the three remaining scenarios never
execute, refuting "no such exception terminates the run (subsequent
scenarios still execute)"; and in the gateway runner's fan-out scenario a
caught per-leg exception is recorded with a generic message, not the
exception text. -/
theorem c1_counterexample :
    run_all_tests (fun _ => none) jailEnvBoom
      = Except.ok ⟨false, ["connection"], 1⟩ ∧
    (["connection"] : List String)
      ≠ ["connection", "query", "close", "invalid"] ∧
    (test_parallel_messages (fun _ => none) [Except.error "boom"] 0).error
      = some "Some agents failed to respond" ∧
    (test_parallel_messages (fun _ => none) [Except.error "boom"] 0).error
      ≠ some "boom" :=
  ⟨rfl, by decide, rfl, by decide⟩

/-- C1 amended: in the gateway runner every scenario converts an
exception from its network interaction into exactly one failed
`TestResult` — all but the fan-out scenario carry the exception text, the
fan-out carries a generic message — and a completed run holds exactly one
result per scheduled scenario, regardless of outcomes.  In the jail
runner a scenario exception instead propagates to `run_all_tests`, which
catches it, skips the remaining scenarios, and fails the run (the process
itself does not crash). -/
theorem c1_scenario_boundary_amended :
    (∀ (e : Err) (dur : Nat),
        test_gateway_health (.error e) dur
          = ⟨"gateway-health", false, dur, some e⟩) ∧
    (∀ (parse : String → Option Json) (e : Err) (dur : Nat),
        test_agent_list parse (.error e) dur
          = ⟨"agent-list", false, dur, some e⟩) ∧
    (∀ (parse : String → Option Json) (e : Err) (a : Json) (dur : Nat),
        test_simple_message parse (.error e) a dur
          = ⟨"simple-message-" ++ a.pyStr, false, dur, some e⟩) ∧
    (∀ (parse : String → Option Json) (e : Err) (a : Json) (dur : Nat),
        test_pack_tool_log_entry parse (.error e) a dur
          = ⟨"pack-tool-log-entry-" ++ a.pyStr, false, dur, some e⟩) ∧
    (∀ (parse : String → Option Json) (e : Err) (a : Json) (dur : Nat),
        test_pack_tool_log_search parse (.error e) a dur
          = ⟨"pack-tool-log-search-" ++ a.pyStr, false, dur, some e⟩) ∧
    (∀ (parse : String → Option Json) (posts : List (Except Err Response))
        (dur : Nat) (e : Err), Except.error e ∈ posts →
        (test_parallel_messages parse posts dur).passed = false) ∧
    (∀ (parse : String → Option Json) (env : GatewayEnv)
        (dirExists : Bool) (rs : List TestResult) (sw : Option Summary)
        (b : Bool),
        run_tests parse env dirExists = RunOutcome.finished rs sw b →
        ∃ ids, rs = (schedule ids).map (runCall parse env) ∧
          rs.length = 2 + 3 * ids.length +
            (if 2 ≤ ids.length then 1 else 0)) ∧
    (∀ (parse : String → Option Json) (env : JailEnv) (e : Err),
        wait_for_server env.serverProbe 0 50 = Except.ok true →
        env.connOutcome = Except.error e →
        run_all_tests parse env
          = Except.ok ⟨false, ["connection"], 1⟩) := by
  refine ⟨fun e dur => rfl, fun parse e dur => rfl, fun parse e a dur => rfl,
    fun parse e a dur => rfl, fun parse e a dur => rfl, ?_, ?_, ?_⟩
  · intro parse posts dur e he
    have hmem : (Except.error e : Except Err SendResult)
        ∈ posts.map (send_message parse) :=
      List.mem_map_of_mem (send_message parse) he
    have hall : ((posts.map (send_message parse)).all fun r =>
        match r with
        | .ok d => !d.fullResponse.isNull
        | .error _ => false) = false :=
      List.all_eq_false.mpr ⟨_, hmem, by simp⟩
    simp only [test_parallel_messages]
    rw [hall]
  · intro parse env dirExists rs sw b h
    unfold run_tests at h
    split at h
    · exact absurd h (by simp)
    · split at h
      · exact absurd h (by simp)
      · split at h
        · exact absurd h (by simp)
        · rw [RunOutcome.finished.injEq] at h
          obtain ⟨hrs, _, _⟩ := h
          exact ⟨_, hrs.symm, by rw [← hrs, List.length_map, schedule_length]⟩
  · intro parse env e hready hconn
    unfold run_all_tests
    rw [hready]
    simp [test_connection, hconn]

/-- Witness for C1: a raising health GET yields the single failed
`gateway-health` result carrying the exception text; a raising POST
yields the single failed `simple-message-a1` result carrying the text;
the concrete jail run with a raising connect stops after `connection`. -/
theorem c1_witness :
    test_gateway_health (Except.error "ConnectError") 7
      = ⟨"gateway-health", false, 7, some "ConnectError"⟩ ∧
    test_simple_message (fun _ => none) (Except.error "ReadTimeout")
        (Json.str "a1") 3
      = ⟨"simple-message-a1", false, 3, some "ReadTimeout"⟩ ∧
    run_all_tests (fun _ => none) jailEnvBoom
      = Except.ok ⟨false, ["connection"], 1⟩ :=
  ⟨c1_scenario_boundary_amended.1 "ConnectError" 7,
    c1_scenario_boundary_amended.2.2.1 (fun _ => none) "ReadTimeout"
      (Json.str "a1") 3,
    c1_scenario_boundary_amended.2.2.2.2.2.2.2 (fun _ => none) jailEnvBoom
      "boom" rfl rfl⟩

/-! ## Claim C6 — the SSE stream parser -/

/-- The aggregated-response update one payload performs: a payload
carrying `full_response` overwrites the accumulator with that field's
value, any other payload leaves it. -/
def updFR (fr : Json) (d : Json) : Json :=
  if hasFullResponse d then
    match d with
    | .obj fs => (jsonLookup fs "full_response").getD .null
    | _ => .null
  else fr

/-- `jsonLookup` finds a value exactly when some field has the key. -/
theorem jsonLookup_isSome (k : String) :
    ∀ (fs : List (String × Json)) (acc : Option Json),
      (fs.foldl
          (fun acc kv => if kv.1 == k then some kv.2 else acc) acc).isSome
        = (acc.isSome || fs.any (fun kv => kv.1 == k)) := by
  intro fs
  induction fs with
  | nil => intro acc; simp
  | cons kv fs ih =>
    intro acc
    rw [List.foldl_cons, ih]
    cases hk : (kv.1 == k) <;> simp [hk]

/-- A parse oracle sending `"3"` to the JSON number 3 (as `json.loads`
does). -/
def parseNum : String → Option Json :=
  fun s => if s = "3" then some (.num 3) else none

/-- C6 counterexample: for the body `"data: 3"` the single line is kept
(its remainder parses as the JSON number 3), but instead of accumulating
it and returning, the loop's `"full_response" in data` membership test
raises `TypeError` on the non-container payload — `send_message` raises,
refuting "accumulates those payloads … skips malformed lines without
raising". -/
theorem c6_counterexample :
    parseSSE parseNum "data: 3"
      = Except.error "TypeError: argument is not iterable" ∧
    keptPayloads parseNum "data: 3" = [Json.num 3] :=
  ⟨rfl, rfl⟩

/-- On which payloads does the loop body of `send_message` complete
without raising?  Exactly: JSON objects (dict membership then dict
subscript), and arrays/strings for which the Python membership test
`"full_response" in data` comes out `False` (a `True` there would send a
non-dict to `data["full_response"]`, a `TypeError`); numbers, booleans
and `null` make the membership test itself raise `TypeError`. -/
def payloadBenign (d : Json) : Bool :=
  match d with
  | .obj _ => true
  | .arr xs => !(xs.any fun x => x.eqStr "full_response")
  | .str s => !(containsSub s "full_response")
  | _ => false

/-- A line without a kept payload leaves the loop state unchanged. -/
theorem processLine_skip (parse : String → Option Json)
    (st : List Json × Json) (l : String)
    (hk : keepLine parse l = none) :
    processLine parse st l = .ok st := by
  unfold processLine
  unfold keepLine at hk
  by_cases hs : strStartsWith l "data: " = true
  · rw [if_pos hs] at hk ⊢
    rw [hk]
  · rw [if_neg hs]

/-- A kept benign payload is appended to the events and performs the
aggregated-response update. -/
theorem processLine_keep (parse : String → Option Json)
    (st : List Json × Json) (l : String) (d : Json)
    (hk : keepLine parse l = some d) (hb : payloadBenign d = true) :
    processLine parse st l = .ok (st.1 ++ [d], updFR st.2 d) := by
  have hs : strStartsWith l "data: " = true := by
    by_contra hs0
    unfold keepLine at hk
    rw [if_neg hs0] at hk
    exact Option.noConfusion hk
  unfold keepLine at hk
  rw [if_pos hs] at hk
  unfold processLine
  rw [if_pos hs, hk]
  cases d with
  | obj fs =>
    simp only [pyIn]
    cases hfr : fs.any (fun kv => kv.1 == "full_response") with
    | false => simp [updFR, hasFullResponse, hfr]
    | true =>
      have hsome : (jsonLookup fs "full_response").isSome = true := by
        rw [jsonLookup, jsonLookup_isSome]
        simp [hfr]
      obtain ⟨v, hv⟩ := Option.isSome_iff_exists.mp hsome
      simp only [pySubscr, updFR, hasFullResponse, hfr, if_true, hv,
        Option.getD_some]
  | arr xs =>
    have hxs : (xs.any fun x => x.eqStr "full_response") = false := by
      simpa [payloadBenign] using hb
    simp only [pyIn, hxs]
    simp [updFR, hasFullResponse]
  | str s =>
    have hcs : containsSub s "full_response" = false := by
      simpa [payloadBenign] using hb
    simp only [pyIn, hcs]
    simp [updFR, hasFullResponse]
  | null => simp [payloadBenign] at hb
  | bool b => simp [payloadBenign] at hb
  | num n => simp [payloadBenign] at hb

/-- A kept payload that is not benign makes this loop iteration raise
(`TypeError` at the membership test for numbers/booleans/`null`, at the
subscript for arrays/strings that do contain `"full_response"`). -/
theorem processLine_raise (parse : String → Option Json)
    (st : List Json × Json) (l : String) (d : Json)
    (hk : keepLine parse l = some d) (hb : payloadBenign d = false) :
    ∃ em, processLine parse st l = Except.error em := by
  have hs : strStartsWith l "data: " = true := by
    by_contra hs0
    unfold keepLine at hk
    rw [if_neg hs0] at hk
    exact Option.noConfusion hk
  unfold keepLine at hk
  rw [if_pos hs] at hk
  unfold processLine
  rw [if_pos hs, hk]
  cases d with
  | obj fs => simp [payloadBenign] at hb
  | arr xs =>
    have hxs : (xs.any fun x => x.eqStr "full_response") = true := by
      simpa [payloadBenign] using hb
    simp only [pyIn, hxs]
    exact ⟨_, rfl⟩
  | str s =>
    have hcs : containsSub s "full_response" = true := by
      simpa [payloadBenign] using hb
    simp only [pyIn, hcs]
    exact ⟨_, rfl⟩
  | null => exact ⟨_, rfl⟩
  | bool b => exact ⟨_, rfl⟩
  | num n => exact ⟨_, rfl⟩

/-- The parsing loop, stated over any starting accumulator: as long as
every kept payload is benign, it returns the kept payloads in order and
folds the aggregated-response update over them. -/
theorem foldlM_processLine (parse : String → Option Json) :
    ∀ (lines : List String) (acc : List Json × Json),
      (∀ d ∈ lines.filterMap (keepLine parse), payloadBenign d = true) →
      lines.foldlM (processLine parse) acc
        = Except.ok (acc.1 ++ lines.filterMap (keepLine parse),
            (lines.filterMap (keepLine parse)).foldl updFR acc.2) := by
  intro lines
  induction lines with
  | nil =>
    intro acc _
    simp only [List.foldlM_nil, List.filterMap_nil, List.append_nil,
      List.foldl_nil]
    rfl
  | cons l ls ih =>
    intro acc h
    rw [List.foldlM_cons]
    cases hk : keepLine parse l with
    | none =>
      rw [processLine_skip parse acc l hk,
        show ((Except.ok acc : Except Err (List Json × Json)) >>= fun a =>
          ls.foldlM (processLine parse) a) = ls.foldlM (processLine parse) acc
          from rfl]
      rw [ih acc (by
        intro d hd
        exact h d (by rw [List.filterMap_cons, hk]; exact hd))]
      rw [List.filterMap_cons, hk]
    | some d =>
      have hb : payloadBenign d = true := by
        refine h d ?_
        rw [List.filterMap_cons, hk]
        exact List.mem_cons_self _ _
      rw [processLine_keep parse acc l d hk hb,
        show ((Except.ok (acc.1 ++ [d], updFR acc.2 d) :
            Except Err (List Json × Json)) >>= fun a =>
          ls.foldlM (processLine parse) a)
          = ls.foldlM (processLine parse) (acc.1 ++ [d], updFR acc.2 d)
          from rfl]
      rw [ih _ (by
        intro d' hd'
        refine h d' ?_
        rw [List.filterMap_cons, hk]
        exact List.mem_cons_of_mem _ hd')]
      rw [List.filterMap_cons, hk]
      simp [List.append_assoc]

/-- The parsing loop raises as soon as some kept payload is not benign
(the earlier benign payloads succeed and the first bad one errors). -/
theorem foldlM_processLine_raise (parse : String → Option Json) :
    ∀ (lines : List String) (acc : List Json × Json),
      (∃ d ∈ lines.filterMap (keepLine parse), payloadBenign d = false) →
      ∃ em, lines.foldlM (processLine parse) acc = Except.error em := by
  intro lines
  induction lines with
  | nil =>
    intro acc h
    simp at h
  | cons l ls ih =>
    intro acc h
    rw [List.foldlM_cons]
    cases hk : keepLine parse l with
    | none =>
      rw [processLine_skip parse acc l hk,
        show ((Except.ok acc : Except Err (List Json × Json)) >>= fun a =>
          ls.foldlM (processLine parse) a) = ls.foldlM (processLine parse) acc
          from rfl]
      refine ih acc ?_
      obtain ⟨d, hd, hb⟩ := h
      rw [List.filterMap_cons, hk] at hd
      exact ⟨d, hd, hb⟩
    | some d0 =>
      cases hb0 : payloadBenign d0 with
      | false =>
        obtain ⟨em, hpe⟩ := processLine_raise parse acc l d0 hk hb0
        exact ⟨em, by rw [hpe]; rfl⟩
      | true =>
        rw [processLine_keep parse acc l d0 hk hb0,
          show ((Except.ok (acc.1 ++ [d0], updFR acc.2 d0) :
              Except Err (List Json × Json)) >>= fun a =>
            ls.foldlM (processLine parse) a)
            = ls.foldlM (processLine parse) (acc.1 ++ [d0], updFR acc.2 d0)
            from rfl]
        refine ih _ ?_
        obtain ⟨d, hd, hb⟩ := h
        rw [List.filterMap_cons, hk] at hd
        rcases List.mem_cons.mp hd with rfl | hd2
        · rw [hb0] at hb
          exact absurd hb (by simp)
        · exact ⟨d, hd2, hb⟩

/-- Folding the aggregated-response update equals taking the
`full_response` field of the last payload that carries it. -/
theorem foldl_updFR_eq (payloads : List Json) :
    payloads.foldl updFR .null = sseSpecFullResponse payloads := by
  induction payloads using List.reverseRecOn with
  | nil => simp [sseSpecFullResponse]
  | append_singleton l d ih =>
    rw [List.foldl_append, List.foldl_cons, List.foldl_nil, ih]
    unfold sseSpecFullResponse
    rw [List.filter_append]
    cases hfr : hasFullResponse d with
    | false =>
      simp only [updFR, hfr, Bool.false_eq_true, if_false]
      simp [List.filter_cons, hfr]
    | true =>
      obtain ⟨fs, rfl⟩ : ∃ fs, d = .obj fs := by
        cases d <;> simp [hasFullResponse] at hfr
        exact ⟨_, rfl⟩
      simp only [updFR, hfr, if_true]
      rw [show List.filter hasFullResponse [Json.obj fs] = [Json.obj fs]
        from by simp [List.filter_cons, hfr]]
      rw [List.getLast?_concat]

/-- C6 amended: for every response body each of whose kept payloads is
benign — a JSON object, or an array/string in which the membership test
for `"full_response"` comes out false — the stream parser accumulates
exactly the kept payloads in order into the events sequence, sets the
aggregated response to the `full_response` field of the last (object)
payload carrying that field (`None` if no payload does), and skips
unparseable lines without raising.  A kept payload outside that
condition instead makes the loop raise a `TypeError` — at the membership
test for a number/boolean/`null` payload, at the `data["full_response"]`
subscript for an array/string payload that does contain
`"full_response"` — which propagates out of `send_message`. -/
theorem c6_sse_refinement_amended :
    (∀ (parse : String → Option Json) (text : String),
      (∀ d ∈ keptPayloads parse text, payloadBenign d = true) →
      parseSSE parse text
        = Except.ok (keptPayloads parse text,
            sseSpecFullResponse (keptPayloads parse text))) ∧
    (∀ (parse : String → Option Json) (text : String),
      (∃ d ∈ keptPayloads parse text, payloadBenign d = false) →
      ∃ em, parseSSE parse text = Except.error em) := by
  constructor
  · intro parse text h
    unfold keptPayloads at h ⊢
    unfold parseSSE
    rw [foldlM_processLine parse (splitLines text) ([], .null) h]
    rw [List.nil_append, foldl_updFR_eq]
  · intro parse text h
    unfold keptPayloads at h
    unfold parseSSE
    exact foldlM_processLine_raise parse (splitLines text) ([], .null) h

/-- A parse oracle for the C6 witness: an object payload carrying
`full_response` and a plain string payload (benign: `"hello"` does not
contain `"full_response"`). -/
def parseMixed : String → Option Json :=
  fun s =>
    if s = "A" then some (.obj [("full_response", .str "hi")])
    else if s = "S" then some (.str "hello")
    else none

/-- A parse oracle for the raising half of the C6 witness: a boolean
payload (the membership test raises `TypeError` on it). -/
def parseBool : String → Option Json :=
  fun s => if s = "T" then some (.bool true) else none

/-- Witness for C6 on concrete bodies: an object payload with
`full_response` followed by a noise line and a benign string payload is
parsed into both events with aggregate `"hi"`; a boolean payload makes
the parser raise. -/
theorem c6_witness :
    parseSSE parseMixed "data: A\nnoise\ndata: S"
      = Except.ok (keptPayloads parseMixed "data: A\nnoise\ndata: S",
          sseSpecFullResponse
            (keptPayloads parseMixed "data: A\nnoise\ndata: S")) ∧
    keptPayloads parseMixed "data: A\nnoise\ndata: S"
      = [Json.obj [("full_response", Json.str "hi")], Json.str "hello"] ∧
    sseSpecFullResponse (keptPayloads parseMixed "data: A\nnoise\ndata: S")
      = Json.str "hi" ∧
    (∃ em, parseSSE parseBool "data: T" = Except.error em) := by
  have hben : ∀ d ∈ keptPayloads parseMixed "data: A\nnoise\ndata: S",
      payloadBenign d = true := by
    intro d hd
    rw [show keptPayloads parseMixed "data: A\nnoise\ndata: S"
      = [Json.obj [("full_response", Json.str "hi")], Json.str "hello"]
      from rfl] at hd
    simp only [List.mem_cons, List.not_mem_nil, or_false] at hd
    rcases hd with rfl | rfl <;> rfl
  refine ⟨c6_sse_refinement_amended.1 parseMixed _ hben, rfl, rfl, ?_⟩
  refine c6_sse_refinement_amended.2 parseBool "data: T" ?_
  refine ⟨Json.bool true, ?_, rfl⟩
  rw [show keptPayloads parseBool "data: T" = [Json.bool true] from rfl]
  exact List.mem_singleton.mpr rfl

end Coven
